import Mathlib

/-!
# Verification of the highlight extraction pipeline

A shallow embedding of `extract_highlight` in `src/highlight_extractor.py`:
the composite audio/visual scoring routine and best-window selector, the
duration clamping, the error paths and the temporary-file lifecycle,
together with theorems settling the specification's claims about them.

Rationals stand in for Python's real-valued durations; frame scores are
naturals (interval indicators plus non-negative pixel-difference sums).
-/

namespace HighlightExtractor

/-- Python's `int()` applied to an exact rational: truncation toward zero.
On the non-negative values arising in the pipeline it is the floor. -/
def pyInt (q : ℚ) : ℤ := if 0 ≤ q then ⌊q⌋ else -⌊-q⌋

/-- Millisecond-to-frame conversion from line 44 of the source:
`int(start / 1000 * fps)` for an integer millisecond timestamp and
integer fps. -/
def msToFrame (ms : ℕ) (fps : ℕ) : ℤ := pyInt ((ms : ℚ) / 1000 * fps)

/-- The conversion as the spec words it: `frame = round(ms / 1000 × fps)`,
rounding to the nearest frame. Stated only for comparison with
`msToFrame`, which embeds the source. -/
def msToFrameSpec (ms : ℕ) (fps : ℕ) : ℤ := round ((ms : ℚ) / 1000 * fps)

/-- Sum of the slice `scores[i : i+L]`, as in
`np.sum(frame_scores[i:i + highlight_frames])`. -/
def windowSum (scores : List ℕ) (i L : ℕ) : ℕ := ((scores.drop i).take L).sum

/-- The scan behind `np.argmax`: index of the first strict maximum,
carrying the index of the next element, the best index so far and the
best value so far. -/
def argmaxAux : List ℕ → ℕ → ℕ → ℕ → ℕ
  | [], _, best, _ => best
  | x :: xs, idx, best, bv =>
      if bv < x then argmaxAux xs (idx + 1) idx x else argmaxAux xs (idx + 1) best bv

/-- `np.argmax` on a list: `none` models the `ValueError` numpy raises on
an empty sequence; otherwise the index of the first occurrence of the
maximum value. -/
def npArgmax : List ℕ → Option ℕ
  | [] => none
  | x :: xs => some (argmaxAux xs 1 0 x)

/-- The best-window selector of lines 89–91:
`np.argmax([np.sum(frame_scores[i:i+L]) for i in range(len(frame_scores) - L)])`.
The candidate starts are `range(N - L)`, i.e. `0 .. N - L - 1`. -/
def bestWindowStart (scores : List ℕ) (L : ℕ) : Option ℕ :=
  npArgmax ((List.range (scores.length - L)).map (fun i => windowSum scores i L))

/-- One non-silent frame range: `frame_scores[start:end] += 1` (line 76),
walked with the running index `k`. Out-of-range parts of the slice are
clipped by numpy and never extend the array; `start`/`end` are
non-negative here since they come from `msToFrame` on non-negative data. -/
def addIntervalFrom (s e : ℤ) : ℕ → List ℕ → List ℕ
  | _, [] => []
  | k, x :: xs =>
      (if s ≤ (k : ℤ) ∧ (k : ℤ) < e then x + 1 else x) :: addIntervalFrom s e (k + 1) xs

/-- `frame_scores[start:end] += 1` on the whole array. -/
def addInterval (scores : List ℕ) (s e : ℤ) : List ℕ := addIntervalFrom s e 0 scores

/-- The loop over `nonsilent_ranges_frames` of lines 75–76. -/
def applyRanges (ranges : List (ℤ × ℤ)) (scores : List ℕ) : List ℕ :=
  ranges.foldl (fun acc p => addInterval acc p.1 p.2) scores

/-- The loop of lines 78–80: `frame_scores[i] += frame_diffs[i]` for each
`i` in range of `frame_diffs` with the guard `i < len(frame_scores)`;
indices past the end of `frame_diffs` receive 0. -/
def addDiffsFrom (diffs : List ℕ) : ℕ → List ℕ → List ℕ
  | _, [] => []
  | k, x :: xs => (x + diffs.getD k 0) :: addDiffsFrom diffs (k + 1) xs

/-- The difference-magnitude pass on the whole score array. -/
def addDiffs (scores diffs : List ℕ) : List ℕ := addDiffsFrom diffs 0 scores

/-- The composite score builder of lines 74–80:
`np.zeros(total_frames)`, then the interval pass, then the difference
pass. -/
def buildScores (N : ℕ) (ranges : List (ℤ × ℤ)) (diffs : List ℕ) : List ℕ :=
  addDiffs (applyRanges ranges (List.replicate N 0)) diffs

/-- Number of non-silent frame ranges `[start, end)` covering index `i`. -/
def coverCount (ranges : List (ℤ × ℤ)) (i : ℕ) : ℕ :=
  ranges.countP (fun p => decide (p.1 ≤ (i : ℤ) ∧ (i : ℤ) < p.2))

/-- The inputs `extract_highlight` draws from its collaborators:
the file check (`os.path.isfile`), the decoder (`VideoFileClip`), the
video's duration in seconds and integer frame rate (`int(video.fps)`),
the detector's non-silent millisecond ranges (`detect_nonsilent`),
whether `cv2.VideoCapture` opens, and the per-consecutive-pair frame
difference sums produced by the read loop (one entry per decoded frame
after the first). -/
structure VideoInput where
  fileExists : Bool
  decodable : Bool
  duration : ℚ
  fps : ℕ
  nonsilentRanges : List (ℕ × ℕ)
  capOpens : Bool
  frameDiffs : List ℕ

/-- The exceptions `extract_highlight` can raise, in source order:
missing file (line 16), decoder failure (line 21), empty non-silent
ranges (line 40), `cv2` open failure (line 50), empty frame-difference
list (line 71), and the `ValueError` numpy raises when `np.argmax`
receives the empty candidate list (line 89). -/
inductive ExtractError where
  | fileNotFound
  | couldNotProcess
  | noAudioActivity
  | unableToOpen
  | noSceneChanges
  | emptyArgmax
  deriving DecidableEq

/-- What one call observably produces: the value returned (or the
exception propagated), how many `st.warning` calls were made, whether
the temporary audio file was created but never removed, and whether the
output clip was written. -/
structure ExtractOutcome where
  result : Except ExtractError String
  warnings : ℕ
  audioLeaked : Bool
  clipWritten : Bool

/-- `total_frames = int(video.duration * fps)` (line 43). -/
def totalFrames (v : VideoInput) : ℕ := (pyInt (v.duration * v.fps)).toNat

/-- The value returned on success: `os.path.join(tempfile.gettempdir(),
"highlight.mp4")` (line 95); the temp-directory prefix is an external
location and is elided. -/
def outputPath : String := "highlight.mp4"

/-- Shallow embedding of `extract_highlight(video_path, highlight_duration)`
(lines 11–102), following the source's control flow step by step:
file check; decode; first duration clamp with two warnings (lines 24–27);
temporary audio file creation (line 30); empty-range check (line 38);
range conversion (line 44); capture-open check (line 48); truncation of
the difference list to `total_frames` (line 67) and its emptiness check
(line 69); composite scores (lines 74–80); second clamp with one warning
(lines 83–88); window selection (lines 89–91); clip write guarded by the
`finally` that removes the audio file (lines 96–100). The audio file is
only removed on the paths that reach lines 39, 49, 70 or the `finally`;
the `ValueError` out of `np.argmax` leaves it in place. -/
def extractHighlight (v : VideoInput) (highlightDuration : ℚ) : ExtractOutcome :=
  if v.fileExists = false then
    ⟨Except.error ExtractError.fileNotFound, 0, false, false⟩
  else if v.decodable = false then
    ⟨Except.error ExtractError.couldNotProcess, 0, false, false⟩
  else
    let w1 : ℕ := if v.duration < highlightDuration then 2 else 0
    let d1 : ℚ := if v.duration < highlightDuration then v.duration else highlightDuration
    if v.nonsilentRanges = [] then
      ⟨Except.error ExtractError.noAudioActivity, w1, false, false⟩
    else
      let ranges := v.nonsilentRanges.map (fun p => (msToFrame p.1 v.fps, msToFrame p.2 v.fps))
      if v.capOpens = false then
        ⟨Except.error ExtractError.unableToOpen, w1, false, false⟩
      else
        let diffs := v.frameDiffs.take (totalFrames v)
        if diffs = [] then
          ⟨Except.error ExtractError.noSceneChanges, w1, false, false⟩
        else
          let frameScores := buildScores (totalFrames v) ranges diffs
          let hf1 : ℤ := pyInt (d1 * v.fps)
          if (frameScores.length : ℤ) < hf1 then
            let d2 : ℚ := (frameScores.length : ℚ) / v.fps
            let hf : ℕ := (pyInt (d2 * v.fps)).toNat
            match bestWindowStart frameScores hf with
            | none => ⟨Except.error ExtractError.emptyArgmax, w1 + 1, true, false⟩
            | some _ => ⟨Except.ok outputPath, w1 + 1, false, true⟩
          else
            let hf : ℕ := hf1.toNat
            match bestWindowStart frameScores hf with
            | none => ⟨Except.error ExtractError.emptyArgmax, w1, true, false⟩
            | some _ => ⟨Except.ok outputPath, w1, false, true⟩

end HighlightExtractor

namespace HighlightExtractor

theorem addIntervalFrom_length (s e : ℤ) (k : ℕ) (l : List ℕ) :
    (addIntervalFrom s e k l).length = l.length := by
  induction l generalizing k with
  | nil => rfl
  | cons x xs ih => simp [addIntervalFrom, ih]

theorem addIntervalFrom_getD (s e : ℤ) (k : ℕ) (l : List ℕ) (i : ℕ) (hi : i < l.length) :
    (addIntervalFrom s e k l).getD i 0 =
      l.getD i 0 + (if s ≤ ((k + i : ℕ) : ℤ) ∧ ((k + i : ℕ) : ℤ) < e then 1 else 0) := by
  induction l generalizing k i with
  | nil => simp at hi
  | cons x xs ih =>
    cases i with
    | zero =>
      simp only [addIntervalFrom, List.getD_cons_zero, Nat.add_zero]
      split <;> simp
    | succ j =>
      have hj : j < xs.length := by simpa using hi
      have hk : k + 1 + j = k + (j + 1) := by omega
      simpa [addIntervalFrom, List.getD_cons_succ, hk] using ih (k + 1) j hj

theorem addInterval_length (l : List ℕ) (s e : ℤ) :
    (addInterval l s e).length = l.length :=
  addIntervalFrom_length s e 0 l

theorem addInterval_getD (l : List ℕ) (s e : ℤ) (i : ℕ) (hi : i < l.length) :
    (addInterval l s e).getD i 0 =
      l.getD i 0 + (if s ≤ (i : ℤ) ∧ (i : ℤ) < e then 1 else 0) := by
  simpa using addIntervalFrom_getD s e 0 l i hi

theorem applyRanges_length (ranges : List (ℤ × ℤ)) (l : List ℕ) :
    (applyRanges ranges l).length = l.length := by
  induction ranges generalizing l with
  | nil => rfl
  | cons p ps ih =>
    show (applyRanges ps (addInterval l p.1 p.2)).length = l.length
    rw [ih, addInterval_length]

theorem applyRanges_getD (ranges : List (ℤ × ℤ)) (l : List ℕ) (i : ℕ) (hi : i < l.length) :
    (applyRanges ranges l).getD i 0 = l.getD i 0 + coverCount ranges i := by
  induction ranges generalizing l with
  | nil => simp [applyRanges, coverCount]
  | cons p ps ih =>
    show (applyRanges ps (addInterval l p.1 p.2)).getD i 0 = _
    rw [ih (addInterval l p.1 p.2) (by rw [addInterval_length]; exact hi),
      addInterval_getD l p.1 p.2 i hi]
    by_cases h : p.1 ≤ (i : ℤ) ∧ (i : ℤ) < p.2 <;>
      simp [coverCount, List.countP_cons, h] <;> omega

theorem addDiffsFrom_length (diffs : List ℕ) (k : ℕ) (l : List ℕ) :
    (addDiffsFrom diffs k l).length = l.length := by
  induction l generalizing k with
  | nil => rfl
  | cons x xs ih => simp [addDiffsFrom, ih]

theorem addDiffsFrom_getD (diffs : List ℕ) (k : ℕ) (l : List ℕ) (i : ℕ) (hi : i < l.length) :
    (addDiffsFrom diffs k l).getD i 0 = l.getD i 0 + diffs.getD (k + i) 0 := by
  induction l generalizing k i with
  | nil => simp at hi
  | cons x xs ih =>
    cases i with
    | zero => simp [addDiffsFrom]
    | succ j =>
      have hj : j < xs.length := by simpa using hi
      have hk : k + 1 + j = k + (j + 1) := by omega
      simpa [addDiffsFrom, List.getD_cons_succ, hk] using ih (k + 1) j hj

theorem replicate_getD (N i : ℕ) : (List.replicate N (0 : ℕ)).getD i 0 = 0 := by
  induction N generalizing i with
  | zero => simp
  | succ n ih => cases i <;> simp [List.replicate_succ, ih]

theorem buildScores_length (N : ℕ) (ranges : List (ℤ × ℤ)) (diffs : List ℕ) :
    (buildScores N ranges diffs).length = N := by
  rw [buildScores, addDiffs, addDiffsFrom_length, applyRanges_length, List.length_replicate]

theorem buildScores_getD (N : ℕ) (ranges : List (ℤ × ℤ)) (diffs : List ℕ) (i : ℕ)
    (hi : i < N) :
    (buildScores N ranges diffs).getD i 0 = diffs.getD i 0 + coverCount ranges i := by
  have h1 : i < (applyRanges ranges (List.replicate N 0)).length := by
    rw [applyRanges_length, List.length_replicate]; exact hi
  rw [buildScores, addDiffs, addDiffsFrom_getD _ _ _ _ h1,
    applyRanges_getD _ _ _ (by rw [List.length_replicate]; exact hi), replicate_getD]
  simp only [Nat.zero_add]
  omega

end HighlightExtractor

namespace HighlightExtractor

/-- C5 (amended): the composite score array has length exactly `N`, and
`score[i] = diffs[i] + (number of converted ranges covering i)`, where
`diffs[i]` is the `i`-th entry of the difference array — the magnitude
between frames `i` and `i+1`, not the magnitude for frame `i`; indices at
or past the end of the difference array get 0 from it (in particular the
last frame, not frame 0), ranges accumulate additively, and covered
indices outside `[0, N)` are ignored and never extend the array. -/
theorem buildScores_spec (N : ℕ) (ranges : List (ℤ × ℤ)) (diffs : List ℕ) :
    (buildScores N ranges diffs).length = N ∧
    ∀ i, i < N → (buildScores N ranges diffs).getD i 0 = diffs.getD i 0 + coverCount ranges i :=
  ⟨buildScores_length N ranges diffs, fun i hi => buildScores_getD N ranges diffs i hi⟩

/-- C5 counterexample: with `N = 2`, no non-silent ranges and difference
array `[5]`, the claim puts the magnitude-5 contribution at index 1 and 0
at index 0 (`[0, 5]`), but the code adds `frame_diffs[i]` at index `i`
and produces `[5, 0]`. -/
theorem buildScores_misaligned :
    buildScores 2 [] [5] = [5, 0] ∧ buildScores 2 [] [5] ≠ [0, 5] := by decide

/-- C5 witness: the amended description evaluated at `N = 2`, one range
`[0, 2)`, difference array `[1]`, index 0. -/
theorem buildScores_spec_witness :
    (buildScores 2 [(0, 2)] [1]).length = 2 ∧
    (0 < 2 ∧ (buildScores 2 [(0, 2)] [1]).getD 0 0 = [1].getD 0 0 + coverCount [(0, 2)] 0) :=
  ⟨(buildScores_spec 2 [(0, 2)] [1]).1,
   by decide, (buildScores_spec 2 [(0, 2)] [1]).2 0 (by decide)⟩

/-- C1: the claim fails on the code. At score array `[0, 1]` with
`L = 1`, the valid starts are 0 and 1 (`[0, N - L]`), but the selector's
comprehension ranges over `range(N - L) = {0}` only: it returns start 0
while the never-evaluated start 1 has the strictly greater window sum 1. -/
theorem bestWindowStart_misses_last_start :
    bestWindowStart [0, 1] 1 = some 0 ∧
    windowSum [0, 1] 0 1 = 0 ∧ windowSum [0, 1] 1 1 = 1 := by decide

/-- C2: the claim fails on the code. On the all-zero score array of
length 2 with `L = N = 2`, the candidate list `range(N - N)` is empty and
`np.argmax` raises a `ValueError` (modelled as `none`) instead of
returning the only valid start 0. -/
theorem bestWindowStart_L_eq_N_raises :
    bestWindowStart (List.replicate 2 0) 2 = none ∧
    (List.replicate 2 (0 : ℕ)).length = 2 := by decide

/-- C6 (amended): each interval endpoint is converted with `int()`
truncation — `msToFrame ms fps` is the floor of `ms / 1000 * fps` (the
inputs are non-negative), never rounded up to the nearest frame. -/
theorem msToFrame_truncates (ms fps : ℕ) :
    msToFrame ms fps = ⌊(ms : ℚ) / 1000 * fps⌋ ∧
    (msToFrame ms fps : ℚ) ≤ (ms : ℚ) / 1000 * fps := by
  have h : (0 : ℚ) ≤ (ms : ℚ) / 1000 * fps := by positivity
  refine ⟨?_, ?_⟩
  · rw [msToFrame, pyInt, if_pos h]
  · rw [msToFrame, pyInt, if_pos h]
    exact_mod_cast Int.floor_le ((ms : ℚ) / 1000 * fps)

/-- C6 counterexample: at 900 ms and 1 fps the code computes frame
`int(0.9) = 0`, while the spec's `round(0.9)` is 1. -/
theorem msToFrame_not_nearest :
    msToFrame 900 1 = 0 ∧ msToFrameSpec 900 1 = 1 := by
  constructor
  · norm_num [msToFrame, pyInt]
  · norm_num [msToFrameSpec, round_eq]

/-- C4 (amended): with a readable, decodable source, an empty non-silent
interval list makes the pipeline fail with the no-audio-activity error
before the frame-difference signal is consulted; the no-scene-changes
error is raised when the intervals are non-empty but the (truncated)
frame-difference list is empty. A fatal error is raised when either
signal is empty, not only when both are. -/
theorem empty_signal_error_paths (v : VideoInput) (r : ℚ)
    (h1 : v.fileExists = true) (h2 : v.decodable = true) :
    (v.nonsilentRanges = [] →
      (extractHighlight v r).result = Except.error ExtractError.noAudioActivity) ∧
    (v.nonsilentRanges ≠ [] → v.capOpens = true → v.frameDiffs.take (totalFrames v) = [] →
      (extractHighlight v r).result = Except.error ExtractError.noSceneChanges) := by
  constructor
  · intro h3
    simp [extractHighlight, h1, h2, h3]
  · intro h3 h4 h5
    simp [extractHighlight, h1, h2, h3, h4, h5]

/-- C4 counterexample: zero non-silent intervals together with the
non-empty frame-difference signal `[5]`: the claim says the pipeline
proceeds on the difference signal alone, but the code raises the
no-audio-activity error. -/
theorem empty_audio_with_diffs_fails :
    (extractHighlight ⟨true, true, 2, 1, [], true, [5]⟩ 1).result
        = Except.error ExtractError.noAudioActivity := by
  norm_num [extractHighlight]

/-- C4 witness: the amended error paths at a concrete decodable input
with an empty interval list. -/
theorem empty_signal_error_paths_witness :
    (extractHighlight ⟨true, true, 1, 1, [], true, [3]⟩ 1).result
        = Except.error ExtractError.noAudioActivity :=
  (empty_signal_error_paths ⟨true, true, 1, 1, [], true, [3]⟩ 1 rfl rfl).1 rfl

/-- C3: the claim fails on the code. A readable 2-second 1-fps video
(2 frames, non-silent throughout, one frame difference) asked for a
5-second highlight: the duration is clamped and the two warnings are
emitted, but the pipeline then raises the `np.argmax` ValueError (the
candidate list `range(N - N)` is empty) instead of proceeding with the
clamped window of length `min(requested_frames, N) = 2`. -/
theorem clamped_run_fails :
    (extractHighlight ⟨true, true, 2, 1, [(0, 2000)], true, [1]⟩ 5).result
        = Except.error ExtractError.emptyArgmax ∧
    (extractHighlight ⟨true, true, 2, 1, [(0, 2000)], true, [1]⟩ 5).warnings = 2 := by
  constructor <;>
    norm_num [extractHighlight, totalFrames, pyInt, msToFrame, buildScores, applyRanges,
      addInterval, addIntervalFrom, addDiffs, addDiffsFrom, bestWindowStart, windowSum,
      npArgmax, argmaxAux, List.range_succ, Int.toNat_ofNat]

/-- C9: the claim fails on the code. On the same shape of input with a
3-second request, the `ValueError` out of `np.argmax` propagates from
line 89, which is outside the `try/finally` of lines 96–100 and after the
temporary audio file was created at line 30: the file is never removed on
this exit path. -/
theorem argmax_failure_leaks_audio_file :
    (extractHighlight ⟨true, true, 2, 1, [(0, 2000)], true, [1]⟩ 3).audioLeaked = true ∧
    (extractHighlight ⟨true, true, 2, 1, [(0, 2000)], true, [1]⟩ 3).result
        = Except.error ExtractError.emptyArgmax := by
  constructor <;>
    norm_num [extractHighlight, totalFrames, pyInt, msToFrame, buildScores, applyRanges,
      addInterval, addIntervalFrom, addDiffs, addDiffsFrom, bestWindowStart, windowSum,
      npArgmax, argmaxAux, List.range_succ, Int.toNat_ofNat]

/-- C7 (amended): on success the operation returns only the path of the
derived clip file; the adjusted duration and any warning text are emitted
through the UI warning channel during the run and are not part of the
returned value. -/
theorem success_returns_only_path (v : VideoInput) (r : ℚ) (s : String)
    (h : (extractHighlight v r).result = Except.ok s) : s = outputPath := by
  simp only [extractHighlight] at h
  repeat' split at h
  all_goals simp_all

/-- C7 counterexample: two successful runs of the same video with
different requested durations (1 s and 2 s, so different durations
actually used) return the identical bare path: the returned result cannot
contain the duration actually used, nor any warning string. -/
theorem return_value_identical_across_durations :
    (extractHighlight ⟨true, true, 3, 1, [(0, 3000)], true, [1, 1]⟩ 1).result
        = (extractHighlight ⟨true, true, 3, 1, [(0, 3000)], true, [1, 1]⟩ 2).result ∧
    (extractHighlight ⟨true, true, 3, 1, [(0, 3000)], true, [1, 1]⟩ 1).result
        = Except.ok outputPath := by
  constructor <;>
    (norm_num [extractHighlight, totalFrames, pyInt, msToFrame, buildScores, applyRanges,
       addInterval, addIntervalFrom, addDiffs, addDiffsFrom, bestWindowStart, windowSum,
       npArgmax, argmaxAux, List.range_succ];
     try simp [windowSum, npArgmax, argmaxAux, List.range_succ])

/-- C7 witness: the amended statement applied to a concrete successful
run. -/
theorem success_returns_only_path_witness :
    (extractHighlight ⟨true, true, 2, 1, [(0, 2000)], true, [1]⟩ 1).result
        = Except.ok outputPath ∧ outputPath = outputPath :=
  ⟨by (norm_num [extractHighlight, totalFrames, pyInt, msToFrame, buildScores, applyRanges,
         addInterval, addIntervalFrom, addDiffs, addDiffsFrom, bestWindowStart, windowSum,
         npArgmax, argmaxAux, List.range_succ];
       try simp [windowSum, npArgmax, argmaxAux, List.range_succ]),
   success_returns_only_path ⟨true, true, 2, 1, [(0, 2000)], true, [1]⟩ 1 outputPath
     (by (norm_num [extractHighlight, totalFrames, pyInt, msToFrame, buildScores, applyRanges,
            addInterval, addIntervalFrom, addDiffs, addDiffsFrom, bestWindowStart, windowSum,
            npArgmax, argmaxAux, List.range_succ];
          try simp [windowSum, npArgmax, argmaxAux, List.range_succ]))⟩

/-- C8: an unreadable or undecodable source aborts the pipeline with the
corresponding error before any scoring or selection, and no clip is
written: the missing-file check, the decoder failure, and the
`cv2.VideoCapture` open failure (reached when the interval list is
non-empty) each produce an error outcome with `clipWritten = false`. -/
theorem unreadable_source_aborts (v : VideoInput) (r : ℚ) :
    (v.fileExists = false →
      (extractHighlight v r).result = Except.error ExtractError.fileNotFound ∧
      (extractHighlight v r).clipWritten = false) ∧
    (v.fileExists = true → v.decodable = false →
      (extractHighlight v r).result = Except.error ExtractError.couldNotProcess ∧
      (extractHighlight v r).clipWritten = false) ∧
    (v.fileExists = true → v.decodable = true → v.nonsilentRanges ≠ [] → v.capOpens = false →
      (extractHighlight v r).result = Except.error ExtractError.unableToOpen ∧
      (extractHighlight v r).clipWritten = false) := by
  refine ⟨fun h1 => ?_, fun h1 h2 => ?_, fun h1 h2 h3 h4 => ?_⟩
  · constructor <;> simp [extractHighlight, h1]
  · constructor <;> simp [extractHighlight, h1, h2]
  · constructor <;> simp [extractHighlight, h1, h2, h3, h4]

/-- C8 witness: the missing-file case at a concrete input. -/
theorem unreadable_source_aborts_witness :
    (extractHighlight ⟨false, true, 1, 1, [], true, []⟩ 1).result
        = Except.error ExtractError.fileNotFound ∧
    (extractHighlight ⟨false, true, 1, 1, [], true, []⟩ 1).clipWritten = false :=
  (unreadable_source_aborts ⟨false, true, 1, 1, [], true, []⟩ 1).1 rfl

/-- C10: when the decoded video yields fewer than two frames the
frame-difference list is empty, and even with non-empty non-silent
intervals and a working capture the pipeline raises the no-scene-changes
error and writes no clip. -/
theorem empty_diffs_fatal (v : VideoInput) (r : ℚ) (h1 : v.fileExists = true)
    (h2 : v.decodable = true) (h3 : v.nonsilentRanges ≠ []) (h4 : v.capOpens = true)
    (h5 : v.frameDiffs = []) :
    (extractHighlight v r).result = Except.error ExtractError.noSceneChanges ∧
    (extractHighlight v r).clipWritten = false := by
  constructor <;> simp [extractHighlight, h1, h2, h3, h4, h5]

/-- C10 witness: a concrete one-frame video with a detected non-silent
interval. -/
theorem empty_diffs_fatal_witness :
    (extractHighlight ⟨true, true, 1, 1, [(0, 500)], true, []⟩ 1).result
        = Except.error ExtractError.noSceneChanges ∧
    (extractHighlight ⟨true, true, 1, 1, [(0, 500)], true, []⟩ 1).clipWritten = false :=
  empty_diffs_fatal ⟨true, true, 1, 1, [(0, 500)], true, []⟩ 1 rfl rfl (by simp) rfl rfl

end HighlightExtractor
